import Mathlib

/-!
Verification of the commission/GST calculation-and-compliance engine of the
commission-system repository.

The numeric semantics is the idealised exact-arithmetic reading of the
JavaScript source: monetary values and percentages are rational numbers, and
`Math.round` is embedded as `fun x => ⌊x + 1/2⌋` (round half toward positive
infinity, which is exactly what `Math.round` does).  The backing document
store is embedded as an explicit `DB` state record threaded through the
operations; `mongoose` query/update primitives (`findOneAndUpdate` with
`upsert` and `$inc`, `findOne`, `findById`, schema validation) are embedded
as pure functions on that state.
-/

/-- JavaScript `Math.round`: round half toward positive infinity. -/
def jround (x : ℚ) : ℤ := ⌊x + 1/2⌋

/-- `Math.round(x * 100) / 100`: round to 2 decimal places, halves up. -/
def round2 (x : ℚ) : ℚ := (jround (x * 100) : ℚ) / 100

/-- Output record of `calculateCommission` (backend/utils/calculateCommission.js). -/
structure Calculations where
  commissionAmount : ℚ
  gstAmount : ℚ
  netIncome : ℚ
  returnAmount : ℚ
deriving DecidableEq

/-- `calculateCommission(totalReceived, commissionPercent = 1, gstRate = 18)`
from backend/utils/calculateCommission.js.  The three input guards throw
(embedded as `Except.error` with the source's message); the four outputs are
computed from unrounded intermediates and each is rounded once at the end. -/
def calculateCommission (totalReceived commissionPercent gstRate : ℚ) :
    Except String Calculations :=
  if totalReceived ≤ 0 then
    .error "Total received amount must be greater than 0"
  else if commissionPercent < 0 ∨ commissionPercent > 100 then
    .error "Commission percentage must be between 0 and 100"
  else if gstRate < 0 ∨ gstRate > 100 then
    .error "GST rate must be between 0 and 100"
  else
    let commissionAmount := totalReceived * commissionPercent / 100
    let gstAmount := commissionAmount * gstRate / 100
    let netIncome := commissionAmount - gstAmount
    let returnAmount := totalReceived - commissionAmount
    .ok { commissionAmount := round2 commissionAmount
          gstAmount := round2 gstAmount
          netIncome := round2 netIncome
          returnAmount := round2 returnAmount }

/-- Modelled from the spec: §4.1's description of the calculation rule with
`round2` "applied independently at each step (not computed from unrounded
intermediates)" — the GST is computed from the already-rounded commission,
the net income from the rounded commission and rounded GST, and the return
amount from the rounded commission.  This definition follows the spec's
words and exists only to be compared with `calculateCommission`, which is
translated from the source. -/
def specCalculateCommission (totalReceived commissionPercent gstRate : ℚ) :
    Except String Calculations :=
  if totalReceived ≤ 0 then
    .error "Total received amount must be greater than 0"
  else if commissionPercent < 0 ∨ commissionPercent > 100 then
    .error "Commission percentage must be between 0 and 100"
  else if gstRate < 0 ∨ gstRate > 100 then
    .error "GST rate must be between 0 and 100"
  else
    let commissionAmount := round2 (totalReceived * commissionPercent / 100)
    let gstAmount := round2 (commissionAmount * gstRate / 100)
    let netIncome := round2 (commissionAmount - gstAmount)
    let returnAmount := round2 (totalReceived - commissionAmount)
    .ok { commissionAmount := commissionAmount
          gstAmount := gstAmount
          netIncome := netIncome
          returnAmount := returnAmount }

/-- `validateCalculations(totalReceived, calculations)` from
backend/utils/calculateCommission.js: both 0.01-tolerance checks, strict. -/
def validateCalculations (totalReceived : ℚ) (c : Calculations) : Bool :=
  decide (|c.commissionAmount + c.returnAmount - totalReceived| < 1/100) &&
  decide (|c.commissionAmount - c.gstAmount - c.netIncome| < 1/100)

/-- `validateTransactionForGST(transaction)` from backend/utils/gstValidation.js,
returning its `errors` array (the result `isValid` is `errors.length === 0`).
JavaScript truthiness: `!x || x <= 0` on a number is `x ≤ 0` in exact
arithmetic. -/
def validateTransactionForGST (commissionAmount gstAmount totalReceived : ℚ) :
    List String :=
  (if commissionAmount ≤ 0 then
    ["Commission amount must be positive for GST reporting"] else []) ++
  (if gstAmount ≤ 0 then
    ["GST amount must be positive for GST reporting"] else []) ++
  (if totalReceived = commissionAmount then
    ["Total received cannot equal commission amount - verify calculation"] else [])

/-- A calendar date as the JavaScript `Date` accessors expose it:
`year = getFullYear()`, `month = getMonth() + 1` (1–12), `day = getDate()`. -/
structure TDate where
  year : ℤ
  month : ℤ
  day : ℤ
deriving DecidableEq

/-- `getFinancialYear(date)` from backend/models/InvoiceNumber.model.js:
Indian financial year, April to March; `String(financialYear).slice(-2)`
is the last two characters of the decimal representation. -/
def getFinancialYear (d : TDate) : String :=
  let financialYear : ℤ := if d.month ≥ 4 then d.year else d.year - 1
  "FY" ++ (toString financialYear).takeRight 2

/-- `String(n).padStart(5, '0')`. -/
def padStart5 (s : String) : String :=
  String.mk (List.replicate (5 - s.length) '0') ++ s

/-- `String(month).padStart(2, '0')`. -/
def padStart2 (s : String) : String :=
  String.mk (List.replicate (2 - s.length) '0') ++ s

/-- The Transaction schema's `invoiceNumber` constraint
`/^INV-FY\d{2}-\d{5}$/` (backend/models/Transaction.model.js). -/
def matchesInvoiceFormat (s : String) : Bool :=
  match s.data with
  | 'I' :: 'N' :: 'V' :: '-' :: 'F' :: 'Y' :: rest =>
    match rest with
    | y1 :: y2 :: '-' :: ds =>
      y1.isDigit && y2.isDigit && decide (ds.length = 5) && ds.all (·.isDigit)
    | _ => false
  | _ => false

/-- The `financialYear` schema constraint `/^FY\d{2}$/` shared by the
Transaction, InvoiceNumber and GSTFilingLock schemas. -/
def fyFormatOk (s : String) : Bool :=
  match s.data with
  | 'F' :: 'Y' :: a :: b :: [] => a.isDigit && b.isDigit
  | _ => false

/-- One InvoiceNumber document (backend/models/InvoiceNumber.model.js):
a per-financial-year sequence record. -/
structure InvoiceSeries where
  financialYear : String
  lastSequenceNumber : ℕ
  pfx : String
deriving DecidableEq

/-- The `findOneAndUpdate({financialYear}, {$inc: {lastSequenceNumber: 1}},
{upsert: true, new: true})` primitive: increment the first record with the
given financial year, or append a fresh one (schema defaults
`lastSequenceNumber = 0` — incremented to 1 — and `prefix = 'INV'`).
Returns the post-update document and the new collection. -/
def bumpSeq : List InvoiceSeries → String → InvoiceSeries × List InvoiceSeries
  | [], fy => (⟨fy, 1, "INV"⟩, [⟨fy, 1, "INV"⟩])
  | x :: xs, fy =>
    if x.financialYear = fy then
      (⟨x.financialYear, x.lastSequenceNumber + 1, x.pfx⟩,
       ⟨x.financialYear, x.lastSequenceNumber + 1, x.pfx⟩ :: xs)
    else
      let r := bumpSeq xs fy
      (r.1, x :: r.2)

/-- The stored sequence counter for a financial year (0 when no record exists,
matching the schema default the upsert starts from). -/
def seqOf : List InvoiceSeries → String → ℕ
  | [], _ => 0
  | x :: xs, fy => if x.financialYear = fy then x.lastSequenceNumber else seqOf xs fy

/-- The stored prefix for a financial year ("INV" when no record exists,
matching the schema default the upsert inserts). -/
def pfxOf : List InvoiceSeries → String → String
  | [], _ => "INV"
  | x :: xs, fy => if x.financialYear = fy then x.pfx else pfxOf xs fy

/-- One GSTFilingLock document (backend/models/GSTFilingLock.model.js).
`lockedAt` is an abstract timestamp; `lockedBy` an abstract user id. -/
structure FilingLock where
  financialYear : String
  month : ℤ
  year : ℤ
  lockedAt : ℕ
  lockedBy : String
  filingPeriod : String
  gstr1FilingDate : Option TDate
  gstr3BFilingDate : Option TDate
  remarks : String
  isLocked : Bool
deriving DecidableEq

/-- `findOneAndUpdate({financialYear, month, year}, {...all fields...},
{upsert: true, new: true})` on the lock collection: replace the first
record with the given key, or append. -/
def upsertLock : List FilingLock → FilingLock → List FilingLock
  | [], l => [l]
  | x :: xs, l =>
    if x.financialYear = l.financialYear ∧ x.month = l.month ∧ x.year = l.year then
      l :: xs
    else
      x :: upsertLock xs l

/-- One Transaction document (backend/models/Transaction.model.js), raw
inputs plus the persisted derived fields.  `tid` stands for `_id`. -/
structure Txn where
  tid : ℕ
  date : TDate
  totalReceived : ℚ
  commissionPercent : ℚ
  commissionAmount : ℚ
  gstAmount : ℚ
  netIncome : ℚ
  returnAmount : ℚ
  paymentMode : String
  createdBy : String
  remarks : String
  invoiceNumber : String
  financialYear : String
deriving DecidableEq

/-- The Transaction schema validation mongoose runs on `create`/`save`:
`totalReceived ≥ 0.01`, `commissionPercent ∈ [0,100]`, non-negative
`commissionAmount`/`gstAmount`/`returnAmount`, `paymentMode` in the `['QR']`
enum, the `invoiceNumber` and `financialYear` format constraints, and the
500-character bound on `remarks`. -/
def txnSchemaValid (t : Txn) : Bool :=
  decide ((1 : ℚ)/100 ≤ t.totalReceived) &&
  decide ((0 : ℚ) ≤ t.commissionPercent) && decide (t.commissionPercent ≤ 100) &&
  decide ((0 : ℚ) ≤ t.commissionAmount) &&
  decide ((0 : ℚ) ≤ t.gstAmount) &&
  decide ((0 : ℚ) ≤ t.returnAmount) &&
  decide (t.paymentMode = "QR") &&
  matchesInvoiceFormat t.invoiceNumber &&
  fyFormatOk t.financialYear &&
  decide (t.remarks.length ≤ 500)

/-- The embedded document store: the three collections the core mutates,
plus the id counter standing for ObjectId generation. -/
structure DB where
  sequences : List InvoiceSeries
  locks : List FilingLock
  transactions : List Txn
  nextId : ℕ
deriving DecidableEq

/-- `GSTFilingLock.isDateLocked(date)`: derive `(financialYear, month, year)`
from the date — the financial year through the same `getFinancialYear` the
invoice allocator uses — and `findOne` a lock with `isLocked: true`. -/
def isDateLocked (db : DB) (d : TDate) : Bool :=
  db.locks.any fun l =>
    decide (l.financialYear = getFinancialYear d) &&
    decide (l.month = d.month) && decide (l.year = d.year) && l.isLocked

/-- `InvoiceNumber.getNextInvoiceNumber(financialYear)`: atomic
upsert-and-increment, then format
`` `${prefix}-${financialYear}-${String(n).padStart(5, '0')}` ``. -/
def getNextInvoiceNumber (db : DB) (fy : String) : String × DB :=
  let r := bumpSeq db.sequences fy
  (r.1.pfx ++ "-" ++ fy ++ "-" ++ padStart5 (Nat.repr r.1.lastSequenceNumber),
   { db with sequences := r.2 })

/-- `generateInvoiceNumber(date)` from backend/utils/invoiceNumber.js. -/
def generateInvoiceNumber (db : DB) (d : TDate) : String × DB :=
  getNextInvoiceNumber db (getFinancialYear d)

/-- `GSTFilingLock.lockMonth(month, year, lockedBy, options)` (model level):
derive the financial year from `new Date(year, month - 1, 1)`, build the
`filingPeriod` string, and upsert the lock with `isLocked: true` and fresh
metadata. -/
def lockMonthModel (db : DB) (month year : ℤ) (lockedBy : String) (now : ℕ)
    (gstr1 gstr3B : Option TDate) (remarks : String) : FilingLock × DB :=
  let fy := getFinancialYear ⟨year, month, 1⟩
  let filingPeriod := fy ++ "-" ++ padStart2 (toString month)
  let lock : FilingLock :=
    { financialYear := fy, month := month, year := year, lockedAt := now
      lockedBy := lockedBy, filingPeriod := filingPeriod
      gstr1FilingDate := gstr1, gstr3BFilingDate := gstr3B
      remarks := remarks, isLocked := true }
  (lock, { db with locks := upsertLock db.locks lock })

/-- The `lockMonth` controller (backend/controllers/filingLock.controller.js):
reject missing month/year (JavaScript falsiness on numbers: zero), reject an
already-locked period with "already locked", otherwise delegate to the model
upsert. -/
def controllerLockMonth (db : DB) (month year : ℤ) (lockedBy : String) (now : ℕ)
    (gstr1 gstr3B : Option TDate) (remarks : String) :
    Except String FilingLock × DB :=
  if month = 0 ∨ year = 0 then
    (.error "Month and year are required", db)
  else if isDateLocked db ⟨year, month, 1⟩ then
    (.error "already locked", db)
  else
    let r := lockMonthModel db month year lockedBy now gstr1 gstr3B remarks
    (.ok r.1, r.2)

/-- `GSTFilingLock.unlockMonth(month, year)`: find by the derived key and set
`isLocked: false`; `none` when no record exists (the controller maps that to
a 404). -/
def unlockMonth (db : DB) (month year : ℤ) : Option FilingLock × DB :=
  let fy := getFinancialYear ⟨year, month, 1⟩
  match db.locks.find? (fun l =>
      decide (l.financialYear = fy) && decide (l.month = month) &&
      decide (l.year = year)) with
  | none => (none, db)
  | some l =>
    let l' := { l with isLocked := false }
    (some l',
     { db with locks := db.locks.map fun x =>
         if x.financialYear = fy ∧ x.month = month ∧ x.year = year then l' else x })

/-- The request body of the create endpoint (transaction.controller.js):
`commissionPercent`, `paymentMode` and `remarks` are optional. -/
structure CreateInput where
  date : TDate
  totalReceived : ℚ
  commissionPercent : Option ℚ
  paymentMode : Option String
  remarks : Option String

/-- Environment configuration resolved by the controller:
`DEFAULT_COMMISSION_PERCENT` and `GST_RATE` (after the `|| 18` fallback). -/
structure Env where
  defaultCommissionPercent : ℚ
  gstRate : ℚ

/-- The error outcomes of the create path, in source order. -/
inductive CreateError where
  | invalidInput (msg : String)
  | calculationMismatch
  | gstValidationFailed (errors : List String)
  | schemaRejected
deriving DecidableEq

/-- `x || 'd'` on a string: the empty string is falsy. -/
def strOr (x : Option String) (d : String) : String :=
  match x with
  | none => d
  | some s => if s = "" then d else s

/-- `createTransaction` (transaction.controller.js): resolve the commission
percent (`??` keeps an explicit 0), run `calculateCommission` (a throw is the
`invalidInput` rejection, before any side effect), check
`validateCalculations`, allocate the invoice number and derive the financial
year (the allocation is consumed even if a later step fails), run
`validateTransactionForGST`, then persist through the schema.  No filing-lock
check appears anywhere on this path, and the create routes attach no
`checkFilingLock` middleware. -/
def createTransaction (input : CreateInput) (env : Env) (user : String)
    (db : DB) : Except CreateError Txn × DB :=
  let percent := input.commissionPercent.getD env.defaultCommissionPercent
  match calculateCommission input.totalReceived percent env.gstRate with
  | .error m => (.error (.invalidInput m), db)
  | .ok calcs =>
    if !validateCalculations input.totalReceived calcs then
      (.error .calculationMismatch, db)
    else
      let alloc := generateInvoiceNumber db input.date
      let invoiceNumber := alloc.1
      let db1 := alloc.2
      let financialYear := getFinancialYear input.date
      let gstErrors := validateTransactionForGST calcs.commissionAmount
        calcs.gstAmount input.totalReceived
      if !gstErrors.isEmpty then
        (.error (.gstValidationFailed gstErrors), db1)
      else
        let txn : Txn :=
          { tid := db1.nextId, date := input.date
            totalReceived := input.totalReceived, commissionPercent := percent
            commissionAmount := calcs.commissionAmount
            gstAmount := calcs.gstAmount, netIncome := calcs.netIncome
            returnAmount := calcs.returnAmount
            paymentMode := strOr input.paymentMode "QR", createdBy := user
            remarks := strOr input.remarks ""
            invoiceNumber := invoiceNumber, financialYear := financialYear }
        if txnSchemaValid txn then
          (.ok txn, { db1 with transactions := db1.transactions ++ [txn]
                               nextId := db1.nextId + 1 })
        else
          (.error .schemaRejected, db1)

/-- Error outcomes of the id-addressed routes (update/delete). -/
inductive RouteError where
  | notFound
  | filingLocked
  | invalidInput (msg : String)
  | schemaRejected
deriving DecidableEq

/-- `Transaction.findById(id)`. -/
def findTxn (db : DB) (id : ℕ) : Option Txn :=
  db.transactions.find? (fun t => t.tid == id)

/-- `checkFilingLock` (filingLock.middleware.js) on the `/:id` routes: fetch
the transaction, 404 when absent, refuse with `FILING_LOCKED` when
`isDateLocked(transaction.date)`. -/
def checkFilingLockGuard (db : DB) (id : ℕ) : Option RouteError :=
  match findTxn db id with
  | none => some .notFound
  | some t => if isDateLocked db t.date then some .filingLocked else none

/-- The patch body of the update endpoint; every field optional (`??`). -/
structure UpdatePatch where
  date : Option TDate
  totalReceived : Option ℚ
  commissionPercent : Option ℚ
  paymentMode : Option String
  remarks : Option String

/-- `updateTransaction` (transaction.controller.js): merge patch over the
stored record, recompute all derived fields with `calculateCommission`, and
save through the schema. -/
def updateTransactionH (db : DB) (id : ℕ) (patch : UpdatePatch) (env : Env) :
    Except RouteError Txn × DB :=
  match findTxn db id with
  | none => (.error .notFound, db)
  | some t0 =>
    let total := patch.totalReceived.getD t0.totalReceived
    let percent := patch.commissionPercent.getD t0.commissionPercent
    match calculateCommission total percent env.gstRate with
    | .error m => (.error (.invalidInput m), db)
    | .ok calcs =>
      let t1 : Txn :=
        { t0 with date := patch.date.getD t0.date, totalReceived := total
                  commissionPercent := percent
                  commissionAmount := calcs.commissionAmount
                  gstAmount := calcs.gstAmount, netIncome := calcs.netIncome
                  returnAmount := calcs.returnAmount
                  paymentMode := patch.paymentMode.getD t0.paymentMode
                  remarks := patch.remarks.getD t0.remarks }
      if txnSchemaValid t1 then
        (.ok t1, { db with transactions := db.transactions.map fun t =>
                     if t.tid == id then t1 else t })
      else
        (.error .schemaRejected, db)

/-- `deleteTransaction` (transaction.controller.js):
`findByIdAndDelete` — remove the record if present. -/
def deleteTransactionH (db : DB) (id : ℕ) : DB :=
  { db with transactions := db.transactions.eraseP (fun t => t.tid == id) }

/-- `PUT /:id` as wired in transaction.routes.js:
`checkFilingLock` then `updateTransaction`. -/
def routedUpdate (db : DB) (id : ℕ) (patch : UpdatePatch) (env : Env) :
    Except RouteError Txn × DB :=
  match checkFilingLockGuard db id with
  | some e => (.error e, db)
  | none => updateTransactionH db id patch env

/-- `DELETE /:id` as wired in transaction.routes.js:
`checkFilingLock` then `deleteTransaction`. -/
def routedDelete (db : DB) (id : ℕ) : Except RouteError Unit × DB :=
  match checkFilingLockGuard db id with
  | some e => (.error e, db)
  | none => (.ok (), deleteTransactionH db id)

/-- The per-transaction `errors` entries pushed by `validateGSTCompliance`
(backend/utils/gstValidation.js), identified by their `field` value.  Rule 2
hardcodes the 18% rate (`transaction.commissionAmount * 0.18`). -/
def txnComplianceErrors (t : Txn) : List String :=
  (if t.commissionAmount ≤ 0 then ["commissionAmount"] else []) ++
  (if |t.gstAmount - t.commissionAmount * (18/100)| > 1/100 then ["gstAmount"] else []) ++
  (if |t.netIncome - (t.commissionAmount - t.gstAmount)| > 1/100 then ["netIncome"] else []) ++
  (if |t.returnAmount - (t.totalReceived - t.commissionAmount)| > 1/100 then ["returnAmount"] else [])

/-- The per-transaction warning of `validateGSTCompliance` (rule 3). -/
def txnComplianceWarnings (t : Txn) : List String :=
  if |t.totalReceived - t.commissionAmount| < 1/100 then ["totalReceived equals commission"] else []

/-- Result shape of `validateGSTCompliance(transactions)`. -/
structure ComplianceResult where
  isValid : Bool
  errors : List (ℕ × String)
  warnings : List ℕ
deriving DecidableEq

/-- The `transactions.forEach((transaction, index) => ...)` error
accumulation of `validateGSTCompliance`, with the running index explicit. -/
def complianceErrorsFrom (i : ℕ) : List Txn → List (ℕ × String)
  | [] => []
  | t :: ts => (txnComplianceErrors t).map (fun f => (i, f)) ++
      complianceErrorsFrom (i + 1) ts

/-- The warning accumulation of `validateGSTCompliance`. -/
def complianceWarningsFrom (i : ℕ) : List Txn → List ℕ
  | [] => []
  | t :: ts => (txnComplianceWarnings t).map (fun _ => i) ++
      complianceWarningsFrom (i + 1) ts

/-- `validateGSTCompliance(transactions)`: collect indexed errors and
warnings across the batch; `isValid` is `errors.length === 0`. -/
def validateGSTCompliance (ts : List Txn) : ComplianceResult :=
  let errors := complianceErrorsFrom 0 ts
  let warnings := complianceWarningsFrom 0 ts
  { isValid := errors.isEmpty, errors := errors, warnings := warnings }

/-! ### Arithmetic facts about the rounding function -/

theorem jround_sub_le (x : ℚ) : (jround x : ℚ) - x ≤ 1/2 := by
  have h := Int.floor_le (x + 1/2)
  simp only [jround]
  linarith

theorem lt_jround_sub (x : ℚ) : -(1/2) < (jround x : ℚ) - x := by
  have h := Int.lt_floor_add_one (x + 1/2)
  simp only [jround]
  linarith

theorem round2_sub_le (x : ℚ) : round2 x - x ≤ 1/200 := by
  have h := jround_sub_le (x * 100)
  simp only [round2]
  linarith

theorem lt_round2_sub (x : ℚ) : -(1/200) < round2 x - x := by
  have h := lt_jround_sub (x * 100)
  simp only [round2]
  linarith

theorem abs_round2_sub (x : ℚ) : |round2 x - x| ≤ 1/200 := by
  rw [abs_le]
  exact ⟨by linarith [lt_round2_sub x], round2_sub_le x⟩

/-- Conservation-style bound: splitting `t` into a rounded part and a rounded
remainder moves the total by at most one cent. -/
theorem abs_round2_add_round2_sub (t x : ℚ) :
    |round2 x + round2 (t - x) - t| ≤ 1/100 := by
  have h1 := round2_sub_le x
  have h2 := lt_round2_sub x
  have h3 := round2_sub_le (t - x)
  have h4 := lt_round2_sub (t - x)
  rw [abs_le]
  constructor <;> linarith

/-- Net-income-style bound: `round2 (x - y)` differs from
`round2 x - round2 y` by at most one cent, by integrality of the three
scaled roundings. -/
theorem abs_round2_sub_sub (x y : ℚ) :
    |round2 (x - y) - (round2 x - round2 y)| ≤ 1/100 := by
  have hNe : round2 (x - y) = (jround ((x - y) * 100) : ℚ) / 100 := rfl
  have hCe : round2 x = (jround (x * 100) : ℚ) / 100 := rfl
  have hGe : round2 y = (jround (y * 100) : ℚ) / 100 := rfl
  have b1 := jround_sub_le ((x - y) * 100)
  have b2 := lt_jround_sub ((x - y) * 100)
  have b3 := jround_sub_le (x * 100)
  have b4 := lt_jround_sub (x * 100)
  have b5 := jround_sub_le (y * 100)
  have b6 := lt_jround_sub (y * 100)
  set D : ℤ := jround ((x - y) * 100) - jround (x * 100) + jround (y * 100) with hD
  have hcast : (D : ℚ) =
      (jround ((x - y) * 100) : ℚ) - (jround (x * 100) : ℚ) + (jround (y * 100) : ℚ) := by
    rw [hD]
    push_cast
    ring
  have hlt : (D : ℚ) < 2 := by rw [hcast]; linarith
  have hgt : (-2 : ℚ) < (D : ℚ) := by rw [hcast]; linarith
  have hD2 : D < 2 := by exact_mod_cast hlt
  have hD3 : (-2 : ℤ) < D := by exact_mod_cast hgt
  have hDabs : |(D : ℚ)| ≤ 1 := by
    rw [abs_le]
    constructor
    · exact_mod_cast (by omega : (-1 : ℤ) ≤ D)
    · exact_mod_cast (by omega : D ≤ (1 : ℤ))
  have heq : round2 (x - y) - (round2 x - round2 y) = (D : ℚ) / 100 := by
    rw [hNe, hCe, hGe, hcast]
    ring
  rw [heq, abs_div, abs_of_pos (by norm_num : (0 : ℚ) < 100)]
  linarith

/-- Rule-2-style bound at the hardcoded 18% rate: rounding the GST computed
from the unrounded commission stays within one cent of 18% of the rounded
commission. -/
theorem abs_round2_gst_sub (x : ℚ) :
    |round2 (x * 18 / 100) - round2 x * (18 / 100)| ≤ 1/100 := by
  have h1 := abs_round2_sub (x * 18 / 100)
  have h2 := abs_round2_sub x
  have key : round2 (x * 18 / 100) - round2 x * (18 / 100) =
      (round2 (x * 18 / 100) - x * 18 / 100) - (round2 x - x) * (18 / 100) := by
    ring
  rw [key]
  calc |(round2 (x * 18 / 100) - x * 18 / 100) - (round2 x - x) * (18 / 100)|
      ≤ |round2 (x * 18 / 100) - x * 18 / 100| + |(round2 x - x) * (18 / 100)| := by
        exact abs_sub _ _
    _ ≤ 1/200 + (1/200) * (18/100) := by
        rw [abs_mul]
        have h3 : |(18 : ℚ) / 100| = 18/100 := by norm_num
        rw [h3]
        nlinarith [abs_nonneg (round2 x - x)]
    _ ≤ 1/100 := by norm_num

/-! ### Facts about decimal string representations -/

theorem toDigitsCore_len (f : ℕ) : ∀ (n : ℕ) (acc : List Char), n < f →
    (Nat.toDigitsCore 10 f n acc).length = Nat.log 10 n + 1 + acc.length := by
  induction f with
  | zero => intro n acc h; omega
  | succ f ih =>
    intro n acc h
    rw [Nat.toDigitsCore]
    by_cases h10 : n / 10 = 0
    · have hn : n < 10 := by omega
      simp [h10, Nat.log_eq_zero_iff.mpr (Or.inl hn)]
      omega
    · have hn : 10 ≤ n := by
        by_contra hc
        push_neg at hc
        interval_cases n <;> simp_all
      simp only [h10, if_false]
      have hlt : n / 10 < f := by
        have := Nat.div_lt_self (by omega : 0 < n) (by norm_num : 1 < 10)
        omega
      rw [ih (n / 10) _ hlt]
      have hlog : Nat.log 10 n = Nat.log 10 (n / 10) + 1 := by
        rw [Nat.log_div_base 10 n] at *
        have hpos : 0 < Nat.log 10 n := Nat.log_pos (by norm_num) hn
        omega
      rw [hlog]
      simp only [List.length_cons]
      omega

theorem repr_len_eq (n : ℕ) : (Nat.repr n).length = Nat.log 10 n + 1 := by
  have h := toDigitsCore_len (n + 1) n [] (by omega)
  simp [Nat.repr, Nat.toDigits, List.asString, String.length] at *
  exact h

theorem digitChar_isDigit (k : ℕ) (h : k < 10) : (Nat.digitChar k).isDigit = true := by
  interval_cases k <;> decide

theorem toDigitsCore_all_digits (f : ℕ) : ∀ (n : ℕ) (acc : List Char),
    (∀ c ∈ acc, c.isDigit = true) →
    ∀ c ∈ Nat.toDigitsCore 10 f n acc, c.isDigit = true := by
  induction f with
  | zero => intro n acc hacc; simpa [Nat.toDigitsCore] using hacc
  | succ f ih =>
    intro n acc hacc c hc
    rw [Nat.toDigitsCore] at hc
    by_cases h10 : n / 10 = 0
    · simp only [h10, if_true] at hc
      rcases List.mem_cons.mp hc with h | h
      · subst h; exact digitChar_isDigit _ (Nat.mod_lt _ (by norm_num))
      · exact hacc _ h
    · simp only [h10, if_false] at hc
      refine ih (n / 10) _ ?_ c hc
      intro d hd
      rcases List.mem_cons.mp hd with h | h
      · subst h; exact digitChar_isDigit _ (Nat.mod_lt _ (by norm_num))
      · exact hacc _ h

theorem repr_all_digits (n : ℕ) : ∀ c ∈ (Nat.repr n).data, c.isDigit = true := by
  intro c hc
  have h : (Nat.repr n).data = Nat.toDigits 10 n := by
    simp [Nat.repr, List.asString]
  rw [h] at hc
  exact toDigitsCore_all_digits (n + 1) n [] (by simp) c hc

theorem repr_len_le_five (n : ℕ) (h : n ≤ 99999) : (Nat.repr n).length ≤ 5 := by
  rw [repr_len_eq]
  rcases Nat.eq_zero_or_pos n with h0 | h0
  · simp [h0]
  · have : Nat.log 10 n < 5 := Nat.log_lt_of_lt_pow (by omega) (by norm_num; omega)
    omega

theorem repr_len_ge_six (n : ℕ) (h : 100000 ≤ n) : 6 ≤ (Nat.repr n).length := by
  rw [repr_len_eq]
  have : 5 ≤ Nat.log 10 n := by
    rw [← Nat.pow_le_iff_le_log (by norm_num) (by omega)]
    norm_num
    omega
  omega

theorem fyFormatOk_data (fy : String) (h : fyFormatOk fy = true) :
    ∃ a b, fy.data = ['F', 'Y', a, b] ∧ a.isDigit = true ∧ b.isDigit = true := by
  unfold fyFormatOk at h
  split at h
  · rename_i a b heq
    exact ⟨a, b, heq, by simpa using h⟩
  · exact absurd h (by simp)

theorem matchesInvoiceFormat_elab (fy : String) (hfy : fyFormatOk fy = true)
    (tail : List Char) :
    matchesInvoiceFormat ("INV-" ++ fy ++ "-" ++ String.mk tail) =
      (decide (tail.length = 5) && tail.all (·.isDigit)) := by
  obtain ⟨a, b, hdata, ha, hb⟩ := fyFormatOk_data fy hfy
  have hfull : ("INV-" ++ fy ++ "-" ++ String.mk tail).data =
      'I' :: 'N' :: 'V' :: '-' :: 'F' :: 'Y' :: a :: b :: '-' :: tail := by
    simp [String.data_append, hdata]
  unfold matchesInvoiceFormat
  rw [hfull]
  simp [ha, hb]

/-- The format characterisation behind C10: with a well-formed financial
year, the formatted invoice string satisfies the Transaction schema's
regular expression exactly when the sequence value fits in 5 digits. -/
theorem padded_matches_iff (fy : String) (hfy : fyFormatOk fy = true) (n : ℕ) :
    (matchesInvoiceFormat ("INV-" ++ fy ++ "-" ++ padStart5 (Nat.repr n)) = true
      ↔ n ≤ 99999) := by
  have hldata : (Nat.repr n).length = (Nat.repr n).data.length := rfl
  have hps : padStart5 (Nat.repr n) =
      String.mk (List.replicate (5 - (Nat.repr n).length) '0' ++ (Nat.repr n).data) := by
    simp [padStart5, String.data_append]
    rfl
  rw [hps, matchesInvoiceFormat_elab fy hfy]
  rw [Bool.and_eq_true, decide_eq_true_eq, List.all_eq_true]
  rw [List.length_append, List.length_replicate]
  constructor
  · rintro ⟨hlen, _⟩
    by_contra hc
    push_neg at hc
    have h6 := repr_len_ge_six n (by omega)
    omega
  · intro h
    have h5 := repr_len_le_five n h
    refine ⟨by omega, ?_⟩
    intro c hc
    rcases List.mem_append.mp hc with hm | hm
    · have := List.eq_of_mem_replicate hm
      subst this
      decide
    · exact repr_all_digits n c hm

/-! ### Facts about the collection primitives -/

theorem bumpSeq_fst_seq (l : List InvoiceSeries) (fy : String) :
    (bumpSeq l fy).1.lastSequenceNumber = seqOf l fy + 1 := by
  induction l with
  | nil => rfl
  | cons x xs ih =>
    by_cases h : x.financialYear = fy <;> simp [bumpSeq, seqOf, h, ih]

theorem bumpSeq_fst_pfx (l : List InvoiceSeries) (fy : String) :
    (bumpSeq l fy).1.pfx = pfxOf l fy := by
  induction l with
  | nil => rfl
  | cons x xs ih =>
    by_cases h : x.financialYear = fy <;> simp [bumpSeq, pfxOf, h, ih]

theorem bumpSeq_snd_seq (l : List InvoiceSeries) (fy : String) :
    seqOf (bumpSeq l fy).2 fy = seqOf l fy + 1 := by
  induction l with
  | nil => simp [bumpSeq, seqOf]
  | cons x xs ih =>
    by_cases h : x.financialYear = fy <;> simp [bumpSeq, seqOf, h, ih]

theorem mem_upsertLock (ls : List FilingLock) (l : FilingLock) :
    l ∈ upsertLock ls l := by
  induction ls with
  | nil => simp [upsertLock]
  | cons x xs ih =>
    by_cases h : x.financialYear = l.financialYear ∧ x.month = l.month ∧ x.year = l.year <;>
      simp [upsertLock, h, ih]

theorem validateTransactionForGST_nil_iff (c g t : ℚ) :
    validateTransactionForGST c g t = [] ↔ (0 < c ∧ 0 < g ∧ t ≠ c) := by
  unfold validateTransactionForGST
  split_ifs <;> simp_all

theorem complianceErrorsFrom_nil (ts : List Txn)
    (h : ∀ t ∈ ts, txnComplianceErrors t = []) :
    ∀ i, complianceErrorsFrom i ts = [] := by
  induction ts with
  | nil => intro i; rfl
  | cons t ts ih =>
    intro i
    have ht := h t (by simp)
    simp only [complianceErrorsFrom, ht, List.map_nil, List.nil_append]
    exact ih (fun x hx => h x (by simp [hx])) (i + 1)

/-- Successful runs of `calculateCommission` in closed form: the guards hold
and each output is a single rounding of an unrounded intermediate. -/
theorem calculateCommission_ok_elim (t p r : ℚ) (c : Calculations)
    (h : calculateCommission t p r = .ok c) :
    0 < t ∧ 0 ≤ p ∧ p ≤ 100 ∧ 0 ≤ r ∧ r ≤ 100 ∧
    c.commissionAmount = round2 (t * p / 100) ∧
    c.gstAmount = round2 (t * p / 100 * r / 100) ∧
    c.netIncome = round2 (t * p / 100 - t * p / 100 * r / 100) ∧
    c.returnAmount = round2 (t - t * p / 100) := by
  unfold calculateCommission at h
  split_ifs at h with h1 h2 h3
  · push_neg at h1 h2 h3
    injection h with h4
    subst h4
    exact ⟨by linarith, h2.1, h2.2, h3.1, h3.2, rfl, rfl, rfl, rfl⟩

/-- Successful runs of `createTransaction` in closed form: the stored derived
fields are the source's formulas, and the GST-validation guards passed. -/
theorem createTransaction_ok_elim (input : CreateInput) (env : Env)
    (user : String) (db : DB) (txn : Txn) (db' : DB)
    (h : createTransaction input env user db = (.ok txn, db')) :
    0 < input.totalReceived ∧
    txn.totalReceived = input.totalReceived ∧
    txn.commissionPercent = input.commissionPercent.getD env.defaultCommissionPercent ∧
    txn.commissionAmount =
      round2 (input.totalReceived * txn.commissionPercent / 100) ∧
    txn.gstAmount =
      round2 (input.totalReceived * txn.commissionPercent / 100 * env.gstRate / 100) ∧
    txn.netIncome =
      round2 (input.totalReceived * txn.commissionPercent / 100 -
        input.totalReceived * txn.commissionPercent / 100 * env.gstRate / 100) ∧
    txn.returnAmount =
      round2 (input.totalReceived -
        input.totalReceived * txn.commissionPercent / 100) ∧
    0 < txn.commissionAmount ∧ 0 < txn.gstAmount ∧
    txn.totalReceived ≠ txn.commissionAmount := by
  unfold createTransaction at h
  dsimp only at h
  cases hcc : calculateCommission input.totalReceived
      (input.commissionPercent.getD env.defaultCommissionPercent) env.gstRate with
  | error m =>
    rw [hcc] at h
    exact absurd h (by simp)
  | ok calcs =>
    rw [hcc] at h
    obtain ⟨ht, hp0, hp1, hr0, hr1, hca, hg, hn, hra⟩ :=
      calculateCommission_ok_elim _ _ _ _ hcc
    by_cases hv : validateCalculations input.totalReceived calcs
    · simp only [hv, Bool.not_true, Bool.false_eq_true, if_false] at h
      by_cases hge : (validateTransactionForGST calcs.commissionAmount
          calcs.gstAmount input.totalReceived).isEmpty
      · simp only [hge, Bool.not_true, Bool.false_eq_true, if_false] at h
        have hnil : validateTransactionForGST calcs.commissionAmount
            calcs.gstAmount input.totalReceived = [] :=
          List.isEmpty_iff.mp hge
        obtain ⟨hc0, hg0, hne⟩ := (validateTransactionForGST_nil_iff _ _ _).mp hnil
        split_ifs at h with hschema
        · obtain ⟨hfst, hsnd⟩ := (Prod.mk.injEq _ _ _ _).mp h
          injection hfst with hfst
          subst hfst
          exact ⟨ht, rfl, rfl, hca, hg, hn, hra, hc0, hg0, hne⟩
        · exact absurd h (by simp)
      · simp only [hge, Bool.not_false, if_true] at h
        exact absurd h (by simp)
    · simp only [hv, Bool.not_false, if_true] at h
      exact absurd h (by simp)

/-! ### Concrete fixtures used by witnesses and counterexamples -/

def emptyDB : DB := ⟨[], [], [], 0⟩

def env18 : Env := ⟨1, 18⟩

def env5 : Env := ⟨1, 5⟩

def lockJan2024 : FilingLock :=
  ⟨"FY23", 1, 2024, 7, "alice", "FY23-01", none, none, "", true⟩

def dbLocked : DB := ⟨[], [lockJan2024], [], 0⟩

def inputJan : CreateInput := ⟨⟨2024, 1, 15⟩, 10000, some 1, none, none⟩

def inputMay : CreateInput := ⟨⟨2024, 5, 15⟩, 10000, some 1, none, none⟩

def inputP100 : CreateInput := ⟨⟨2024, 5, 15⟩, 251/250, some 100, none, none⟩

def inputP0 : CreateInput := ⟨⟨2024, 5, 15⟩, 10000, some 0, none, none⟩

def inputP100b : CreateInput := ⟨⟨2024, 5, 15⟩, 10000, some 100, none, none⟩

def inputZero : CreateInput := ⟨⟨2024, 5, 15⟩, 0, some 1, none, none⟩

def mayTxn : Txn :=
  ⟨0, ⟨2024, 5, 15⟩, 10000, 1, 100, 18, 82, 9900, "QR", "user-1", "",
   "INV-FY24-00001", "FY24"⟩

def mayDB : DB := ⟨[⟨"FY24", 1, "INV"⟩], [], [mayTxn], 1⟩

/-! ### C2 -/

/-- C2, counterexample: at `totalReceived = 2.6`, `commissionPercent = 1`,
`gstRate = 18`, the source computes `gstAmount = 0.00` from the unrounded
commission `0.026`, while the claimed per-step rule — GST from the
already-rounded commission `0.03` — yields `0.01`; the source also returns
`returnAmount = 2.57` either way, but the per-step `specCalculateCommission`
as a whole disagrees with `calculateCommission` at this input. -/
theorem spec_C2_counterexample :
    calculateCommission (13/5) 1 18 =
      .ok { commissionAmount := 3/100, gstAmount := 0
            netIncome := 1/50, returnAmount := 257/100 } ∧
    round2 (round2 ((13/5) * 1 / 100) * 18 / 100) = 1/100 ∧
    calculateCommission (13/5) 1 18 ≠ specCalculateCommission (13/5) 1 18 := by
  have h1 : calculateCommission (13/5) 1 18 =
      .ok { commissionAmount := 3/100, gstAmount := 0
            netIncome := 1/50, returnAmount := 257/100 } := by
    unfold calculateCommission
    norm_num [round2, jround]
  have h2 : specCalculateCommission (13/5) 1 18 =
      .ok { commissionAmount := 3/100, gstAmount := 1/100
            netIncome := 1/50, returnAmount := 257/100 } := by
    unfold specCalculateCommission
    norm_num [round2, jround]
  refine ⟨h1, by norm_num [round2, jround], ?_⟩
  intro h
  rw [h1, h2] at h
  injection h with h
  have hg := congrArg Calculations.gstAmount h
  norm_num at hg

/-- C2, amended: for every valid input (`totalReceived > 0`,
`commissionPercent` and `gstRate` in [0,100]), `calculateCommission` returns
`commissionAmount = round2(t·p/100)`,
`gstAmount = round2((t·p/100)·r/100)` computed from the *unrounded*
commission, `netIncome = round2` of the difference of the unrounded
commission and unrounded GST, and `returnAmount = round2(t − t·p/100)` from
the unrounded commission: rounding is applied once to each final output
(half away from zero coincides with the implementation's half-up on these
non-negative outputs), never per-step to already-rounded intermediates. -/
theorem spec_C2_amended (t p r : ℚ) (h1 : 0 < t) (h2 : 0 ≤ p) (h3 : p ≤ 100)
    (h4 : 0 ≤ r) (h5 : r ≤ 100) :
    calculateCommission t p r =
      .ok { commissionAmount := round2 (t * p / 100)
            gstAmount := round2 (t * p / 100 * r / 100)
            netIncome := round2 (t * p / 100 - t * p / 100 * r / 100)
            returnAmount := round2 (t - t * p / 100) } := by
  unfold calculateCommission
  rw [if_neg (by linarith), if_neg (by push_neg; exact ⟨h2, h3⟩),
    if_neg (by push_neg; exact ⟨h4, h5⟩)]

/-- C2, witness: the amended theorem applied at the spec's own scenario
`(10000, 1, 18)`, giving `100.00 / 18.00 / 82.00 / 9900.00`. -/
theorem spec_C2_amended_witness :
    calculateCommission 10000 1 18 =
      .ok { commissionAmount := 100, gstAmount := 18
            netIncome := 82, returnAmount := 9900 } := by
  rw [spec_C2_amended 10000 1 18 (by norm_num) (by norm_num) (by norm_num)
    (by norm_num) (by norm_num)]
  norm_num [round2, jround]

/-! ### C5 -/

/-- C5: `calculateCommission` fails (with the `InvalidInput` messages of the
source) exactly when `totalReceived ≤ 0`, or `commissionPercent` is outside
[0,100], or the GST rate is outside [0,100]; and when the resolved inputs
make it fail during `createTransaction`, the create returns that
`invalidInput` error with the store untouched — no invoice sequence
consumed, nothing persisted. -/
theorem spec_C5_invalid_input :
    (∀ t p r : ℚ, (∃ m, calculateCommission t p r = .error m) ↔
      (t ≤ 0 ∨ p < 0 ∨ 100 < p ∨ r < 0 ∨ 100 < r)) ∧
    (∀ (input : CreateInput) (env : Env) (user : String) (db : DB) (m : String),
      calculateCommission input.totalReceived
        (input.commissionPercent.getD env.defaultCommissionPercent)
        env.gstRate = .error m →
      createTransaction input env user db = (.error (.invalidInput m), db)) := by
  constructor
  · intro t p r
    unfold calculateCommission
    split_ifs with h1 h2 h3
    · simp only [Except.error.injEq, exists_eq']
      tauto
    · simp only [Except.error.injEq, exists_eq']
      tauto
    · simp only [Except.error.injEq, exists_eq']
      tauto
    · push_neg at h1 h2 h3
      simp only [reduceCtorEq, exists_false, false_iff]
      push_neg
      exact ⟨h1, h2.1, h2.2, h3.1, h3.2⟩
  · intro input env user db m hm
    unfold createTransaction
    dsimp only
    rw [hm]

/-- C5, witness: at `totalReceived = 0` the failure fires and the create
leaves the store unchanged. -/
theorem spec_C5_invalid_input_witness :
    (∃ m, calculateCommission 0 1 18 = .error m) ∧
    createTransaction inputZero env18 "user-1" emptyDB =
      (.error (.invalidInput "Total received amount must be greater than 0"),
       emptyDB) := by
  constructor
  · exact (spec_C5_invalid_input.1 0 1 18).mpr (Or.inl le_rfl)
  · refine spec_C5_invalid_input.2 inputZero env18 "user-1" emptyDB _ ?_
    unfold calculateCommission
    norm_num [inputZero, env18]

/-! ### C6 -/

/-- C6: `getFinancialYear` returns "FY" followed by the last two characters
of the decimal calendar year when the month is April (4) or later, and of
the previous calendar year otherwise; March 31 of year Y maps to FY(Y−1)
and April 1 of year Y maps to FY(Y) (concretely FY23/FY24 at Y = 2024); and
the filing-lock lookup `isDateLocked` derives its financial-year key with
this same `getFinancialYear` the invoice allocator uses. -/
theorem spec_C6_fiscal_year :
    (∀ d : TDate, getFinancialYear d =
      "FY" ++ (toString (if d.month ≥ 4 then d.year else d.year - 1)).takeRight 2) ∧
    (∀ y : ℤ,
      getFinancialYear ⟨y, 3, 31⟩ = "FY" ++ (toString (y - 1)).takeRight 2 ∧
      getFinancialYear ⟨y, 4, 1⟩ = "FY" ++ (toString y).takeRight 2) ∧
    getFinancialYear ⟨2024, 3, 31⟩ = "FY23" ∧
    getFinancialYear ⟨2024, 4, 1⟩ = "FY24" ∧
    (∀ (db : DB) (d : TDate), isDateLocked db d =
      db.locks.any fun l =>
        decide (l.financialYear = getFinancialYear d) &&
        decide (l.month = d.month) && decide (l.year = d.year) && l.isLocked) ∧
    (∀ (db : DB) (d : TDate),
      generateInvoiceNumber db d = getNextInvoiceNumber db (getFinancialYear d)) := by
  refine ⟨fun d => rfl, fun y => ⟨?_, ?_⟩, by decide, by decide,
    fun db d => rfl, fun db d => rfl⟩
  · simp [getFinancialYear]
  · simp [getFinancialYear]

/-! ### C7 -/

/-- C7: starting from no sequence record for a fiscal year the first
sequential allocation yields sequence number 1, every allocation yields
exactly the stored sequence plus one (so sequential allocations are
strictly increasing and never reused), each formatted as
`{prefix}-{fiscalYear}-{sequence zero-padded to 5 digits}`; concretely, two
sequential allocations for FY24 from an empty store give
INV-FY24-00001 then INV-FY24-00002. -/
theorem spec_C7_sequence :
    (∀ (db : DB) (fy : String),
      seqOf (getNextInvoiceNumber db fy).2.sequences fy = seqOf db.sequences fy + 1 ∧
      (getNextInvoiceNumber db fy).1 =
        pfxOf db.sequences fy ++ "-" ++ fy ++ "-" ++
          padStart5 (Nat.repr (seqOf db.sequences fy + 1))) ∧
    (getNextInvoiceNumber emptyDB "FY24").1 = "INV-FY24-00001" ∧
    (getNextInvoiceNumber (getNextInvoiceNumber emptyDB "FY24").2 "FY24").1 =
      "INV-FY24-00002" := by
  refine ⟨fun db fy => ⟨?_, ?_⟩, by decide, by decide⟩
  · exact bumpSeq_snd_seq db.sequences fy
  · unfold getNextInvoiceNumber
    dsimp only
    rw [bumpSeq_fst_pfx, bumpSeq_fst_seq]

/-! ### C8 -/

/-- C8: for every input accepted by `calculateCommission`, the outputs
satisfy conservation: `commissionAmount + returnAmount` is within 0.01 of
`totalReceived`, and `netIncome + gstAmount` is within 0.01 of
`commissionAmount`. -/
theorem spec_C8_conservation (t p r : ℚ) (c : Calculations)
    (h : calculateCommission t p r = .ok c) :
    |c.commissionAmount + c.returnAmount - t| ≤ 1/100 ∧
    |c.netIncome + c.gstAmount - c.commissionAmount| ≤ 1/100 := by
  obtain ⟨ht, _, _, _, _, hca, hg, hn, hra⟩ := calculateCommission_ok_elim t p r c h
  constructor
  · rw [hca, hra]
    exact abs_round2_add_round2_sub t (t * p / 100)
  · rw [hn, hg, hca]
    have hb := abs_round2_sub_sub (t * p / 100) (t * p / 100 * r / 100)
    have heq : round2 (t * p / 100 - t * p / 100 * r / 100) +
        round2 (t * p / 100 * r / 100) - round2 (t * p / 100) =
        round2 (t * p / 100 - t * p / 100 * r / 100) -
          (round2 (t * p / 100) - round2 (t * p / 100 * r / 100)) := by
      ring
    rw [heq]
    exact hb

/-- C8, witness: conservation at the spec scenario `(10000, 1, 18)`. -/
theorem spec_C8_conservation_witness :
    |(100 : ℚ) + 9900 - 10000| ≤ 1/100 ∧ |(82 : ℚ) + 18 - 100| ≤ 1/100 := by
  have h : calculateCommission 10000 1 18 =
      .ok { commissionAmount := 100, gstAmount := 18
            netIncome := 82, returnAmount := 9900 } := by
    unfold calculateCommission
    norm_num [round2, jround]
  have hc := spec_C8_conservation 10000 1 18 _ h
  simpa using hc

/-! ### C10 -/

/-- C10: the allocator's output matches the invoice format
`INV-FY{2 digits}-{exactly 5 digits}` exactly while the fiscal year's
counter after increment is at most 99999 — the zero-padding never truncates,
so for larger counters the sequence portion exceeds 5 digits — and the
Transaction schema's format constraint therefore only admits persisting an
invoice number from a counter of at most 99999. -/
theorem spec_C10_format (db : DB) (d : TDate)
    (hfy : fyFormatOk (getFinancialYear d) = true)
    (hpfx : pfxOf db.sequences (getFinancialYear d) = "INV") :
    (matchesInvoiceFormat (generateInvoiceNumber db d).1 = true ↔
      seqOf db.sequences (getFinancialYear d) + 1 ≤ 99999) ∧
    (∀ t : Txn, t.invoiceNumber = (generateInvoiceNumber db d).1 →
      txnSchemaValid t = true →
      seqOf db.sequences (getFinancialYear d) + 1 ≤ 99999) := by
  have hs : (generateInvoiceNumber db d).1 =
      "INV-" ++ getFinancialYear d ++ "-" ++
        padStart5 (Nat.repr (seqOf db.sequences (getFinancialYear d) + 1)) := by
    unfold generateInvoiceNumber getNextInvoiceNumber
    dsimp only
    rw [bumpSeq_fst_pfx, bumpSeq_fst_seq, hpfx]
    have hlit : ("INV" : String) ++ "-" = "INV-" := rfl
    rw [← hlit]
  constructor
  · rw [hs]
    exact padded_matches_iff (getFinancialYear d) hfy _
  · intro t hinv hvalid
    have hm : matchesInvoiceFormat t.invoiceNumber = true := by
      unfold txnSchemaValid at hvalid
      simp only [Bool.and_eq_true] at hvalid
      exact hvalid.1.1.2
    rw [hinv, hs] at hm
    exact (padded_matches_iff (getFinancialYear d) hfy _).mp hm

/-- C10, witness: at an empty store and a date in FY24 the first allocation
is format-valid and the counter bound holds. -/
theorem spec_C10_format_witness :
    matchesInvoiceFormat (generateInvoiceNumber emptyDB ⟨2024, 5, 15⟩).1 = true ↔
      seqOf emptyDB.sequences (getFinancialYear ⟨2024, 5, 15⟩) + 1 ≤ 99999 :=
  (spec_C10_format emptyDB ⟨2024, 5, 15⟩ (by decide) (by decide)).1

/-! ### Introduction form for successful creates -/

/-- The Transaction record `createTransaction` persists on success, given
the calculation output `c`. -/
def createdTxn (input : CreateInput) (env : Env) (user : String) (db : DB)
    (c : Calculations) : Txn :=
  { tid := (generateInvoiceNumber db input.date).2.nextId
    date := input.date
    totalReceived := input.totalReceived
    commissionPercent := input.commissionPercent.getD env.defaultCommissionPercent
    commissionAmount := c.commissionAmount
    gstAmount := c.gstAmount
    netIncome := c.netIncome
    returnAmount := c.returnAmount
    paymentMode := strOr input.paymentMode "QR"
    createdBy := user
    remarks := strOr input.remarks ""
    invoiceNumber := (generateInvoiceNumber db input.date).1
    financialYear := getFinancialYear input.date }

/-- The store state after a successful create. -/
def createdDB (input : CreateInput) (env : Env) (user : String) (db : DB)
    (c : Calculations) : DB :=
  { (generateInvoiceNumber db input.date).2 with
    transactions := (generateInvoiceNumber db input.date).2.transactions ++
      [createdTxn input env user db c]
    nextId := (generateInvoiceNumber db input.date).2.nextId + 1 }

/-- When all four gates pass, `createTransaction` returns exactly the
persisted transaction and the updated store. -/
theorem createTransaction_ok_intro (input : CreateInput) (env : Env)
    (user : String) (db : DB) (c : Calculations)
    (hcalc : calculateCommission input.totalReceived
      (input.commissionPercent.getD env.defaultCommissionPercent)
      env.gstRate = .ok c)
    (hval : validateCalculations input.totalReceived c = true)
    (hgst : validateTransactionForGST c.commissionAmount c.gstAmount
      input.totalReceived = [])
    (hschema : txnSchemaValid (createdTxn input env user db c) = true) :
    createTransaction input env user db =
      (.ok (createdTxn input env user db c),
       createdDB input env user db c) := by
  unfold createTransaction
  dsimp only
  rw [hcalc]
  simp only [hval, Bool.not_true, Bool.false_eq_true, if_false, hgst,
    List.isEmpty_nil, Bool.not_false, if_true]
  rw [show (createdTxn input env user db c) = _ from rfl] at hschema
  simp only [createdTxn] at hschema
  simp only [hschema, if_true]
  rfl

theorem round2_nonneg (x : ℚ) (h : 0 ≤ x) : 0 ≤ round2 x := by
  unfold round2 jround
  have h0 : (0 : ℤ) ≤ ⌊x * 100 + 1/2⌋ := by
    rw [Int.le_floor]
    push_cast
    nlinarith
  positivity

/-- The persisted record of a successful create passes the Transaction
schema, given the format side conditions on the allocated invoice number and
financial year. -/
theorem createdTxn_schemaValid (input : CreateInput) (env : Env)
    (user : String) (db : DB) (c : Calculations)
    (hcalc : calculateCommission input.totalReceived
      (input.commissionPercent.getD env.defaultCommissionPercent)
      env.gstRate = .ok c)
    (ht : (1 : ℚ)/100 ≤ input.totalReceived)
    (hpm : strOr input.paymentMode "QR" = "QR")
    (hrem : (strOr input.remarks "").length ≤ 500)
    (hinvfmt : matchesInvoiceFormat (generateInvoiceNumber db input.date).1 = true)
    (hfyok : fyFormatOk (getFinancialYear input.date) = true) :
    txnSchemaValid (createdTxn input env user db c) = true := by
  obtain ⟨ht0, hp0, hp1, hr0, hr1, hca, hg, hn, hra⟩ :=
    calculateCommission_ok_elim _ _ _ _ hcalc
  set p := input.commissionPercent.getD env.defaultCommissionPercent
  have hc0 : 0 ≤ c.commissionAmount := by
    rw [hca]
    exact round2_nonneg _ (by positivity)
  have hg0 : 0 ≤ c.gstAmount := by
    rw [hg]
    exact round2_nonneg _ (by positivity)
  have hra0 : 0 ≤ c.returnAmount := by
    rw [hra]
    refine round2_nonneg _ ?_
    have : input.totalReceived * p / 100 ≤ input.totalReceived * 100 / 100 := by
      have := ht0.le
      gcongr
    have h100 : input.totalReceived * 100 / 100 = input.totalReceived := by ring
    linarith [h100 ▸ this]
  unfold txnSchemaValid createdTxn
  dsimp only
  simp only [Bool.and_eq_true, decide_eq_true_eq]
  exact ⟨⟨⟨⟨⟨⟨⟨⟨⟨ht, hp0⟩, hp1⟩, hc0⟩, hg0⟩, hra0⟩, hpm⟩, hinvfmt⟩, hfyok⟩, hrem⟩

/-- `createTransaction` never reads or writes the filing-lock collection:
its outcome is independent of `locks`, which pass through unchanged. -/
theorem createTransaction_locks_indep (input : CreateInput) (env : Env)
    (user : String) (db : DB) (L : List FilingLock) :
    createTransaction input env user { db with locks := L } =
      ((createTransaction input env user db).1,
       { (createTransaction input env user db).2 with locks := L }) := by
  unfold createTransaction generateInvoiceNumber getNextInvoiceNumber
  dsimp only
  cases calculateCommission input.totalReceived
      (input.commissionPercent.getD env.defaultCommissionPercent)
      env.gstRate with
  | error m => rfl
  | ok c =>
    dsimp only
    by_cases hval : validateCalculations input.totalReceived c
    · simp only [hval, Bool.not_true, Bool.false_eq_true, if_false]
      by_cases hgst : (validateTransactionForGST c.commissionAmount c.gstAmount
          input.totalReceived).isEmpty
      · simp only [hgst, Bool.not_true, Bool.false_eq_true, if_false]
        by_cases hschema : txnSchemaValid
            { tid := db.nextId, date := input.date
              totalReceived := input.totalReceived
              commissionPercent := input.commissionPercent.getD env.defaultCommissionPercent
              commissionAmount := c.commissionAmount, gstAmount := c.gstAmount
              netIncome := c.netIncome, returnAmount := c.returnAmount
              paymentMode := strOr input.paymentMode "QR", createdBy := user
              remarks := strOr input.remarks ""
              invoiceNumber := (bumpSeq db.sequences (getFinancialYear input.date)).1.pfx ++
                "-" ++ getFinancialYear input.date ++ "-" ++
                padStart5 (Nat.repr (bumpSeq db.sequences (getFinancialYear input.date)).1.lastSequenceNumber)
              financialYear := getFinancialYear input.date }
        · simp only [hschema, if_true]
        · simp only [hschema, Bool.false_eq_true, if_false]
      · simp only [hgst, Bool.not_false, if_true]
    · simp only [hval, Bool.not_false, if_true]

/-! ### C1 -/

/-- C1, counterexample: January 2024 is locked (`isLocked = true` FilingLock
for the period), yet `createTransaction` for a transaction dated 2024-01-15
succeeds and persists the record — the create path never consults
`isDateLocked` and the create route carries no `checkFilingLock`
middleware, so the mutation is not refused. -/
theorem spec_C1_counterexample :
    isDateLocked dbLocked ⟨2024, 1, 15⟩ = true ∧
    (createTransaction inputJan env18 "user-1" dbLocked).1.isOk = true ∧
    (createTransaction inputJan env18 "user-1" dbLocked).2.transactions.length = 1 := by
  have hcalc : calculateCommission inputJan.totalReceived
      (inputJan.commissionPercent.getD env18.defaultCommissionPercent)
      env18.gstRate = .ok ⟨100, 18, 82, 9900⟩ := by
    show calculateCommission 10000 1 18 = _
    unfold calculateCommission
    norm_num [round2, jround]
  have hval : validateCalculations inputJan.totalReceived ⟨100, 18, 82, 9900⟩ = true := by
    unfold validateCalculations
    norm_num [inputJan]
  have hgst : validateTransactionForGST (100 : ℚ) 18 inputJan.totalReceived = [] := by
    unfold validateTransactionForGST
    norm_num [inputJan]
  have hschema := createdTxn_schemaValid inputJan env18 "user-1" dbLocked
    ⟨100, 18, 82, 9900⟩ hcalc (by norm_num [inputJan]) (by decide) (by decide)
    (by decide) (by decide)
  have hok := createTransaction_ok_intro inputJan env18 "user-1" dbLocked
    ⟨100, 18, 82, 9900⟩ hcalc hval hgst hschema
  refine ⟨by decide, ?_, ?_⟩
  · rw [hok]
    rfl
  · rw [hok]
    rfl

/-- C1, amended: the `isDateLocked` write guard is consulted on update and
delete — both id-addressed routes run `checkFilingLock`, and when the target
transaction's date lies in a locked period they are refused with
`FilingLocked` and the store is unchanged — but not on create:
`createTransaction`'s outcome is entirely independent of the filing-lock
collection, so a create whose date falls in a locked period proceeds exactly
as if no lock existed. -/
theorem spec_C1_amended :
    (∀ (db : DB) (id : ℕ) (patch : UpdatePatch) (env : Env) (t : Txn),
      findTxn db id = some t → isDateLocked db t.date = true →
      routedUpdate db id patch env = (.error .filingLocked, db) ∧
      routedDelete db id = (.error .filingLocked, db)) ∧
    (∀ (input : CreateInput) (env : Env) (user : String) (db : DB)
        (L : List FilingLock),
      createTransaction input env user { db with locks := L } =
        ((createTransaction input env user db).1,
         { (createTransaction input env user db).2 with locks := L })) := by
  constructor
  · intro db id patch env t hfind hlock
    have hguard : checkFilingLockGuard db id = some .filingLocked := by
      unfold checkFilingLockGuard
      rw [hfind]
      dsimp only
      simp [hlock]
    constructor
    · unfold routedUpdate
      rw [hguard]
    · unfold routedDelete
      rw [hguard]
  · exact createTransaction_locks_indep

def janTxn : Txn :=
  ⟨0, ⟨2024, 1, 15⟩, 10000, 1, 100, 18, 82, 9900, "QR", "user-1", "",
   "INV-FY23-00001", "FY23"⟩

def janDBAfter : DB := ⟨[⟨"FY23", 1, "INV"⟩], [lockJan2024], [janTxn], 1⟩

/-- C1, amended, witness: with January 2024 locked, deleting the persisted
January transaction is refused with `FilingLocked` and the store is
unchanged. -/
theorem spec_C1_amended_witness :
    routedDelete janDBAfter 0 = (.error .filingLocked, janDBAfter) :=
  (spec_C1_amended.1 janDBAfter 0 ⟨none, none, none, none, none⟩ env18 janTxn
    (by decide) (by decide)).2

/-! ### C4 -/

/-- C4, counterexample: January 2024 is already locked; calling the lock
operation again does not succeed-and-refresh — the controller checks
`isDateLocked` first and rejects with "already locked", leaving the existing
lock record (lockedAt 7, lockedBy "alice") untouched. -/
theorem spec_C4_counterexample :
    lockJan2024.isLocked = true ∧
    controllerLockMonth dbLocked 1 2024 "bob" 9 none none "second" =
      (.error "already locked", dbLocked) := by
  have hl : isDateLocked dbLocked ⟨2024, 1, 1⟩ = true := by decide
  refine ⟨rfl, ?_⟩
  unfold controllerLockMonth
  rw [if_neg (by norm_num), if_pos hl]

/-- C4, amended: the lock operation exposed by the controller is not
idempotent — re-locking an already-locked (month, year) is refused with
"already locked" and the store is unchanged; the model-level `lockMonth`
upsert is only reached for a period that is not currently locked (absent or
previously unlocked), in which case the operation succeeds and writes a lock
with `isLocked = true` and fresh `lockedAt`, `lockedBy`, filing dates and
remarks, after which the period reads as locked. -/
theorem spec_C4_amended :
    (∀ (db : DB) (m y : ℤ) (u : String) (now : ℕ) (g1 g3 : Option TDate)
        (rem : String),
      m ≠ 0 → y ≠ 0 → isDateLocked db ⟨y, m, 1⟩ = true →
      controllerLockMonth db m y u now g1 g3 rem =
        (.error "already locked", db)) ∧
    (∀ (db : DB) (m y : ℤ) (u : String) (now : ℕ) (g1 g3 : Option TDate)
        (rem : String),
      m ≠ 0 → y ≠ 0 → isDateLocked db ⟨y, m, 1⟩ = false →
      controllerLockMonth db m y u now g1 g3 rem =
        (.ok (lockMonthModel db m y u now g1 g3 rem).1,
         (lockMonthModel db m y u now g1 g3 rem).2) ∧
      (lockMonthModel db m y u now g1 g3 rem).1.isLocked = true ∧
      (lockMonthModel db m y u now g1 g3 rem).1.lockedBy = u ∧
      (lockMonthModel db m y u now g1 g3 rem).1.lockedAt = now ∧
      (lockMonthModel db m y u now g1 g3 rem).1.gstr1FilingDate = g1 ∧
      (lockMonthModel db m y u now g1 g3 rem).1.gstr3BFilingDate = g3 ∧
      (lockMonthModel db m y u now g1 g3 rem).1.remarks = rem ∧
      isDateLocked (lockMonthModel db m y u now g1 g3 rem).2 ⟨y, m, 1⟩ = true) := by
  constructor
  · intro db m y u now g1 g3 rem hm hy hlock
    unfold controllerLockMonth
    rw [if_neg (by tauto), if_pos hlock]
  · intro db m y u now g1 g3 rem hm hy hlock
    refine ⟨?_, rfl, rfl, rfl, rfl, rfl, rfl, ?_⟩
    · unfold controllerLockMonth
      rw [if_neg (by tauto), if_neg (by simp [hlock])]
    · unfold isDateLocked lockMonthModel
      dsimp only
      rw [List.any_eq_true]
      refine ⟨_, mem_upsertLock db.locks _, ?_⟩
      simp

/-- C4, amended, witness: re-locking locked January 2024 is refused with the
store unchanged, while locking it on an empty store leaves the period
locked. -/
theorem spec_C4_amended_witness :
    controllerLockMonth dbLocked 1 2024 "bob" 9 none none "x" =
      (.error "already locked", dbLocked) ∧
    isDateLocked (lockMonthModel emptyDB 1 2024 "alice" 7 none none "").2
      ⟨2024, 1, 1⟩ = true :=
  ⟨spec_C4_amended.1 dbLocked 1 2024 "bob" 9 none none "x"
    (by decide) (by decide) (by decide),
   (spec_C4_amended.2 emptyDB 1 2024 "alice" 7 none none ""
    (by decide) (by decide) (by decide)).2.2.2.2.2.2.2⟩

/-! ### C3 -/

/-- C3, counterexample: with the configured GST rate 5 — accepted by the
calculation rule — a transaction is successfully created, yet
`validateGSTCompliance` on a batch containing it reports errors
(`isValid = false`), because the batch validator hardcodes 18%. -/
theorem spec_C3_counterexample :
    env5.gstRate = 5 ∧ (0 : ℚ) ≤ 5 ∧ (5 : ℚ) ≤ 100 ∧
    (createTransaction inputMay env5 "user-1" emptyDB).1 =
      .ok (createdTxn inputMay env5 "user-1" emptyDB ⟨100, 5, 95, 9900⟩) ∧
    (validateGSTCompliance
      [createdTxn inputMay env5 "user-1" emptyDB ⟨100, 5, 95, 9900⟩]).isValid =
      false := by
  have hcalc : calculateCommission inputMay.totalReceived
      (inputMay.commissionPercent.getD env5.defaultCommissionPercent)
      env5.gstRate = .ok ⟨100, 5, 95, 9900⟩ := by
    show calculateCommission 10000 1 5 = _
    unfold calculateCommission
    norm_num [round2, jround]
  have hval : validateCalculations inputMay.totalReceived ⟨100, 5, 95, 9900⟩ = true := by
    unfold validateCalculations
    norm_num [inputMay]
  have hgst : validateTransactionForGST (100 : ℚ) 5 inputMay.totalReceived = [] := by
    unfold validateTransactionForGST
    norm_num [inputMay]
  have hschema := createdTxn_schemaValid inputMay env5 "user-1" emptyDB
    ⟨100, 5, 95, 9900⟩ hcalc (by norm_num [inputMay]) (by decide) (by decide)
    (by decide) (by decide)
  have hok := createTransaction_ok_intro inputMay env5 "user-1" emptyDB
    ⟨100, 5, 95, 9900⟩ hcalc hval hgst hschema
  refine ⟨rfl, by norm_num, by norm_num, by rw [hok], ?_⟩
  unfold validateGSTCompliance complianceErrorsFrom txnComplianceErrors createdTxn
  norm_num

/-- C3, amended: the validator symmetry holds only at the hardcoded 18%
rate: every transaction successfully created by `createTransaction` under
`gstRate = 18` produces no `validateGSTCompliance` errors, and a batch of
error-free transactions validates with `isValid = true`; for other
configured rates in [0,100] the symmetry fails (see the counterexample). -/
theorem spec_C3_amended :
    (∀ (input : CreateInput) (env : Env) (user : String) (db : DB)
        (txn : Txn) (db' : DB),
      env.gstRate = 18 →
      createTransaction input env user db = (.ok txn, db') →
      txnComplianceErrors txn = []) ∧
    (∀ ts : List Txn, (∀ t ∈ ts, txnComplianceErrors t = []) →
      (validateGSTCompliance ts).isValid = true) := by
  constructor
  · intro input env user db txn db' hrate hok
    obtain ⟨ht, htr, hpc, hca, hg, hn, hra, hc0, hg0, hne⟩ :=
      createTransaction_ok_elim _ _ _ _ _ _ hok
    rw [hrate] at hg hn
    set t := input.totalReceived
    set p := txn.commissionPercent
    unfold txnComplianceErrors
    rw [if_neg (by rw [htr] at *; linarith)]
    rw [if_neg ?hgstBound, if_neg ?hnetBound, if_neg ?hretBound]
    case hgstBound =>
      rw [hg, hca]
      exact not_lt.mpr (abs_round2_gst_sub (t * p / 100))
    case hnetBound =>
      rw [hn, hca, hg]
      exact not_lt.mpr (abs_round2_sub_sub (t * p / 100) (t * p / 100 * 18 / 100))
    case hretBound =>
      rw [hra, hca, htr]
      have heq : round2 (t - t * p / 100) - (t - round2 (t * p / 100)) =
          round2 (t * p / 100) + round2 (t - t * p / 100) - t := by
        ring
      rw [heq]
      exact not_lt.mpr (abs_round2_add_round2_sub t (t * p / 100))
    rfl
  · intro ts h
    unfold validateGSTCompliance
    dsimp only
    rw [complianceErrorsFrom_nil ts h 0]
    rfl

/-- C3, amended, witness: the transaction created at rate 18 from the spec
scenario validates with zero errors in a singleton batch. -/
theorem spec_C3_amended_witness :
    (validateGSTCompliance
      [createdTxn inputMay env18 "user-1" emptyDB ⟨100, 18, 82, 9900⟩]).isValid =
      true := by
  have hcalc : calculateCommission inputMay.totalReceived
      (inputMay.commissionPercent.getD env18.defaultCommissionPercent)
      env18.gstRate = .ok ⟨100, 18, 82, 9900⟩ := by
    show calculateCommission 10000 1 18 = _
    unfold calculateCommission
    norm_num [round2, jround]
  have hval : validateCalculations inputMay.totalReceived ⟨100, 18, 82, 9900⟩ = true := by
    unfold validateCalculations
    norm_num [inputMay]
  have hgst : validateTransactionForGST (100 : ℚ) 18 inputMay.totalReceived = [] := by
    unfold validateTransactionForGST
    norm_num [inputMay]
  have hschema := createdTxn_schemaValid inputMay env18 "user-1" emptyDB
    ⟨100, 18, 82, 9900⟩ hcalc (by norm_num [inputMay]) (by decide) (by decide)
    (by decide) (by decide)
  have hok := createTransaction_ok_intro inputMay env18 "user-1" emptyDB
    ⟨100, 18, 82, 9900⟩ hcalc hval hgst hschema
  have h1 : txnComplianceErrors
      (createdTxn inputMay env18 "user-1" emptyDB ⟨100, 18, 82, 9900⟩) = [] :=
    spec_C3_amended.1 inputMay env18 "user-1" emptyDB _ _ rfl hok
  refine spec_C3_amended.2 _ ?_
  intro x hx
  rw [List.mem_singleton] at hx
  subst hx
  exact h1

/-! ### C9 -/

/-- C9, counterexample: with `totalReceived = 1.004` (sub-cent precision)
and `commissionPercent = 100`, the rounded commission is 1.00 which differs
from `totalReceived`, so `validateTransactionForGST`'s strict equality check
does not fire and the single-create path persists a transaction with
`commissionPercent = 100`. -/
theorem spec_C9_counterexample :
    (createTransaction inputP100 env18 "user-1" emptyDB).1 =
      .ok (createdTxn inputP100 env18 "user-1" emptyDB ⟨1, 9/50, 41/50, 0⟩) ∧
    (createdTxn inputP100 env18 "user-1" emptyDB
      ⟨1, 9/50, 41/50, 0⟩).commissionPercent = 100 := by
  have hcalc : calculateCommission inputP100.totalReceived
      (inputP100.commissionPercent.getD env18.defaultCommissionPercent)
      env18.gstRate = .ok ⟨1, 9/50, 41/50, 0⟩ := by
    show calculateCommission (251/250) 100 18 = _
    unfold calculateCommission
    norm_num [round2, jround]
  have hval : validateCalculations inputP100.totalReceived ⟨1, 9/50, 41/50, 0⟩ = true := by
    unfold validateCalculations
    norm_num [inputP100, abs_lt]
  have hgst : validateTransactionForGST (1 : ℚ) (9/50) inputP100.totalReceived = [] := by
    unfold validateTransactionForGST
    norm_num [inputP100]
  have hschema := createdTxn_schemaValid inputP100 env18 "user-1" emptyDB
    ⟨1, 9/50, 41/50, 0⟩ hcalc (by norm_num [inputP100]) (by decide) (by decide)
    (by decide) (by decide)
  have hok := createTransaction_ok_intro inputP100 env18 "user-1" emptyDB
    ⟨1, 9/50, 41/50, 0⟩ hcalc hval hgst hschema
  exact ⟨by rw [hok], rfl⟩

/-- C9, amended: `createTransaction` always refuses a resolved
`commissionPercent` of 0 (the zero commission fails the GST validation), and
refuses a resolved `commissionPercent` of 100 exactly when `totalReceived`
has at most two decimal places (`round2 t = t`, so the rounded commission
equals `totalReceived`); for sub-cent `totalReceived` a commissionPercent of
100 can produce a persisted transaction (see the counterexample). -/
theorem spec_C9_amended :
    (∀ (input : CreateInput) (env : Env) (user : String) (db : DB),
      input.commissionPercent.getD env.defaultCommissionPercent = 0 →
      (createTransaction input env user db).1.isOk = false) ∧
    (∀ (input : CreateInput) (env : Env) (user : String) (db : DB),
      input.commissionPercent.getD env.defaultCommissionPercent = 100 →
      round2 input.totalReceived = input.totalReceived →
      (createTransaction input env user db).1.isOk = false) := by
  constructor
  · intro input env user db hp
    unfold createTransaction
    dsimp only
    cases hcc : calculateCommission input.totalReceived
        (input.commissionPercent.getD env.defaultCommissionPercent)
        env.gstRate with
    | error m => rfl
    | ok c =>
      obtain ⟨ht, _, _, _, _, hca, _, _, _⟩ :=
        calculateCommission_ok_elim _ _ _ _ hcc
      have hc : c.commissionAmount = 0 := by
        rw [hca, hp]
        have h0 : input.totalReceived * 0 / 100 = 0 := by ring
        rw [h0]
        norm_num [round2, jround]
      by_cases hv : validateCalculations input.totalReceived c
      · simp only [hv, Bool.not_true, Bool.false_eq_true, if_false]
        have hne : (validateTransactionForGST c.commissionAmount c.gstAmount
            input.totalReceived).isEmpty = false := by
          unfold validateTransactionForGST
          rw [if_pos (le_of_eq hc)]
          simp
        simp only [hne, Bool.not_false, if_true]
        rfl
      · simp only [hv, Bool.not_false, if_true]
        rfl
  · intro input env user db hp hround
    unfold createTransaction
    dsimp only
    cases hcc : calculateCommission input.totalReceived
        (input.commissionPercent.getD env.defaultCommissionPercent)
        env.gstRate with
    | error m => rfl
    | ok c =>
      obtain ⟨ht, _, _, _, _, hca, _, _, _⟩ :=
        calculateCommission_ok_elim _ _ _ _ hcc
      have hc : c.commissionAmount = input.totalReceived := by
        rw [hca, hp]
        have h100 : input.totalReceived * 100 / 100 = input.totalReceived := by ring
        rw [h100, hround]
      by_cases hv : validateCalculations input.totalReceived c
      · simp only [hv, Bool.not_true, Bool.false_eq_true, if_false]
        have hne : (validateTransactionForGST c.commissionAmount c.gstAmount
            input.totalReceived).isEmpty = false := by
          unfold validateTransactionForGST
          rw [if_pos hc.symm]
          split_ifs <;> simp
        simp only [hne, Bool.not_false, if_true]
        rfl
      · simp only [hv, Bool.not_false, if_true]
        rfl

/-- C9, amended, witness: resolved percent 0, and resolved percent 100 with
a two-decimal `totalReceived` of 10000, are both refused. -/
theorem spec_C9_amended_witness :
    (createTransaction inputP0 env18 "user-1" emptyDB).1.isOk = false ∧
    (createTransaction inputP100b env18 "user-1" emptyDB).1.isOk = false :=
  ⟨spec_C9_amended.1 inputP0 env18 "user-1" emptyDB rfl,
   spec_C9_amended.2 inputP100b env18 "user-1" emptyDB rfl
    (by norm_num [inputP100b, round2, jround])⟩
